import Mathlib

/-!
Verification of the Lumine recipe application (src/Streamlit.py) against its
natural-language specification.

The Python file is shallowly embedded below.  JSON values are modelled by the
inductive type `Json`; a Python exception escaping a function is modelled by
the `Except PyError` monad, and the Python value `None` by `Option.none`.
Network traffic is a parameter: each embedded operation takes the
`HttpResponse` (or a response oracle) it would have obtained from
`requests.get`, and the chat backends take the underlying model call as an
oracle returning either a value or the exception text.  UI side effects
(`st.error`, `st.write`, spinners) carry no data and are dropped; only the
returned values and the mutation of `st.session_state` are modelled.
-/

/-- A JSON value, as decoded by `response.json()` in the Python source.
Object keys are assumed distinct, as produced by the JSON decoder. -/
inductive Json where
  | null : Json
  | str (s : String) : Json
  | num (n : Int) : Json
  | arr (elems : List Json) : Json
  | obj (fields : List (String × Json)) : Json

/-- The Python exceptions that the embedded code can raise or catch. -/
inductive PyError where
  | valueError : PyError
  | keyError (key : String) : PyError
  | indexError : PyError
  | typeError : PyError
  | attributeError : PyError
deriving DecidableEq

/-- An HTTP response as seen through the `requests` library: a status code and
a body.  `body = none` models a body that is not valid JSON, so that
`response.json()` raises `ValueError`. -/
structure HttpResponse where
  status : Nat
  body : Option Json

/-- `response.json()`: the decoded body, or `ValueError` when the body does
not parse as JSON. -/
def responseJson (resp : HttpResponse) : Except PyError Json :=
  match resp.body with
  | some j => .ok j
  | none => .error .valueError

/-- Python truthiness of a decoded JSON value: `None`, `""`, `0`, `[]` and
an empty dict are falsy, everything else is truthy. -/
def Json.isTruthy : Json → Bool
  | .null => false
  | .str s => !s.isEmpty
  | .num n => n != 0
  | .arr elems => !elems.isEmpty
  | .obj fields => !fields.isEmpty

/-- Whether a JSON value is an object (a Python dict). -/
def Json.isObj : Json → Bool
  | .obj _ => true
  | _ => false

/-- Python `==` between a decoded JSON value and a Python string: true exactly
when the value is that string (a string never equals a number, list, dict or
`None`). -/
def Json.isStrEq (j : Json) (s : String) : Bool :=
  match j with
  | .str t => t == s
  | _ => false

/-- Python subscript `j[k]` with a string key: a dict lookup; a missing key
raises `KeyError`, and subscripting a non-dict by a string raises
`TypeError`. -/
def subscriptKey (j : Json) (k : String) : Except PyError Json :=
  match j with
  | .obj fields =>
    match fields.lookup k with
    | some v => .ok v
    | none => .error (.keyError k)
  | _ => .error .typeError

/-- Python subscript `j[n]` with a numeric index: list indexing (raising
`IndexError` out of range), string indexing, `KeyError` for dicts and
`TypeError` for `None` and numbers. -/
def subscriptIndex (j : Json) (n : Nat) : Except PyError Json :=
  match j with
  | .arr elems =>
    match elems.get? n with
    | some v => .ok v
    | none => .error .indexError
  | .str s =>
    match s.toList.get? n with
    | some c => .ok (.str (String.mk [c]))
    | none => .error .indexError
  | .obj _ => .error (.keyError (toString n))
  | _ => .error .typeError

/-- Python `j.get(k)` on a decoded JSON value: `some` of the field when `j` is
a dict holding key `k`, otherwise `none`.  (On a non-dict Python would raise
`AttributeError`; the embedded selector raises before ever calling `.get` on a
non-dict, so the non-dict branch here is never exercised by it.) -/
def Json.getKey (j : Json) (k : String) : Option Json :=
  match j with
  | .obj fields => fields.lookup k
  | _ => none

/-- The text `str(e)` of an exception, as interpolated by an f-string.  The
exact wording is abbreviated; no claim depends on it. -/
def PyError.msg : PyError → String
  | .valueError => "ValueError"
  | .keyError k => "\x27" ++ k ++ "\x27"
  | .indexError => "list index out of range"
  | .typeError => "TypeError"
  | .attributeError => "AttributeError"

/-- Python `str()` of a decoded JSON value, as interpolated by an f-string.
A string is inserted verbatim; the printed forms of containers are
abbreviated markers (no claim depends on them). -/
def pyStr : Json → String
  | .null => "None"
  | .str s => s
  | .num n => toString n
  | .arr _ => "[\x2e\x2e\x2e]"
  | .obj _ => "\x7b\x2e\x2e\x2e\x7d"

/-! ## The Recipe-Database Client (src/Streamlit.py) -/

/-- `fetch_ingredient_list` (src/Streamlit.py lines 29-40), with the HTTP
response it obtained as a parameter.  On status 200 it returns
`response.json()[\x27meals\x27]`; the `except` clause catches only
`ValueError`, so any other exception escapes.  `.ok none` models returning
`None` after reporting the error. -/
def fetch_ingredient_list (resp : HttpResponse) : Except PyError (Option Json) :=
  if resp.status = 200 then
    match (do
      let j ← responseJson resp
      subscriptKey j "meals" : Except PyError Json) with
    | .ok v => .ok (some v)
    | .error .valueError => .ok none
    | .error e => .error e
  else .ok none

/-- `search_recipes_by_category_and_area` (src/Streamlit.py lines 92-103):
identical failure structure to `fetch_ingredient_list`, returning
`response.json()[\x27meals\x27]` on status 200 and catching only
`ValueError`. -/
def search_recipes_by_category_and_area (resp : HttpResponse) :
    Except PyError (Option Json) :=
  if resp.status = 200 then
    match (do
      let j ← responseJson resp
      subscriptKey j "meals" : Except PyError Json) with
    | .ok v => .ok (some v)
    | .error .valueError => .ok none
    | .error e => .error e
  else .ok none

/-- `get_recipe_details` (src/Streamlit.py lines 117-128): on status 200
returns `response.json()[\x27meals\x27][0]`; the `except` clause catches
`ValueError` and `KeyError` (returning `None`), so `IndexError` from an empty
`meals` list escapes. -/
def get_recipe_details (resp : HttpResponse) : Except PyError (Option Json) :=
  if resp.status = 200 then
    match (do
      let j ← responseJson resp
      let meals ← subscriptKey j "meals"
      subscriptIndex meals 0 : Except PyError Json) with
    | .ok v => .ok (some v)
    | .error .valueError => .ok none
    | .error (.keyError _) => .ok none
    | .error e => .error e
  else .ok none

/-! ## Ingredient normalisation and the chat backends -/

/-- The list comprehension
`[ingredient[\x27strIngredient\x27] for ingredient in recognized_ingredients]`
inside `normalize_ingredients` (src/Streamlit.py line 111).  A missing key
raises `KeyError` out of the function. -/
def ingredient_names (recognized_ingredients : List Json) :
    Except PyError (List Json) :=
  recognized_ingredients.mapM (fun ingredient => subscriptKey ingredient "strIngredient")

/-- `normalize_ingredients` (src/Streamlit.py lines 110-114): splits the
product names by exact membership (Python `in`, i.e. `==` against each list
element) in the recognized ingredient names. -/
def normalize_ingredients (product_names : List String)
    (recognized_ingredients : List Json) :
    Except PyError (List String × List String) := do
  let names ← ingredient_names recognized_ingredients
  let normalized_names := product_names.filter (fun n => names.any (fun j => j.isStrEq n))
  let not_recognized_names := product_names.filter (fun n => !(names.any (fun j => j.isStrEq n)))
  return (normalized_names, not_recognized_names)

/-- `generate_response_gemma` (src/Streamlit.py lines 12-17).  The underlying
`ollama.generate` call is the oracle `gen`, returning either the decoded
response object or the text of the exception it raised.  The subscript
`response[\x27response\x27]` is inside the same `try`, and `except Exception`
catches every failure, so the function always returns a value: on any failure
the string `"An error occurred: " ++ details`. -/
def generate_response_gemma (gen : String → Except String Json)
    (prompt : String) : Json :=
  match (do
    let response ← gen prompt
    (subscriptKey response "response").mapError PyError.msg : Except String Json) with
  | .ok v => v
  | .error e => .str ("An error occurred: " ++ e)

/-- `generate_response_llama` (src/Streamlit.py lines 20-26).  The `Ollama`
constructor plus `llm.invoke(prompt)` is the oracle `invoke`; `except
Exception` converts any failure to `"An error occurred: " ++ details`. -/
def generate_response_llama (invoke : String → Except String String)
    (prompt : String) : String :=
  match invoke prompt with
  | .ok response => response
  | .error e => "An error occurred: " ++ e

/-- One submission of the chat form in `chatbot_tab` (src/Streamlit.py lines
175-195), acting on the stored transcript `history`.  With truthy (non-empty)
input the code first assigns `st.session_state.history = []`, then appends
the user line, picks the backend by comparing `model_choice` against the
string `"gemma:2b"`, and appends the bot line; with empty input nothing
happens. -/
def chat_turn (gen : String → Except String Json)
    (invoke : String → Except String String) (model_choice : String)
    (history : List String) (user_input : String) : List String :=
  if user_input.isEmpty then history
  else
    let cleared : List String := []
    let withUser := cleared ++ ["Aspiring Chef: " ++ user_input]
    let bot_response : String :=
      if model_choice = "gemma:2b" then
        pyStr (generate_response_gemma gen user_input)
      else
        generate_response_llama invoke user_input
    withUser ++ ["Culinary Luminary: " ++ bot_response]

/-! ## The ingredient-overlap selector (upload_products_tab) -/

/-- The overlap count of one recipe-details dict (src/Streamlit.py line 242):
`sum(1 for i in range(1, 21) if recipe_details.get(f\x27strIngredient{i}\x27)
in normalized_names)` — the number of the 20 ingredient slots whose value is
a string present in `normalized_names`. -/
def match_count (recipe_details : Json) (normalized_names : List String) : Nat :=
  (List.range' 1 20).countP (fun i =>
    match recipe_details.getKey ("strIngredient" ++ toString i) with
    | some (.str s) => normalized_names.contains s
    | _ => false)

/-- One iteration of the selection loop (src/Streamlit.py lines 239-245),
acting on the running state `(best_recipe, best_match_count)` given the value
`d` returned by `get_recipe_details` for the current candidate.  A falsy
result (`None`, or an empty dict) is skipped; a truthy dict replaces the
running best exactly when its count is strictly greater; a truthy non-dict
would make `recipe_details.get` raise `AttributeError`. -/
def select_step (normalized_names : List String) (st : Option Json × Nat)
    (d : Option Json) : Except PyError (Option Json × Nat) :=
  match d with
  | none => .ok st
  | some j =>
    if j.isTruthy then
      if j.isObj then
        if st.2 < match_count j normalized_names then
          .ok (some j, match_count j normalized_names)
        else .ok st
      else .error .attributeError
    else .ok st

/-- The selection loop over the per-candidate lookup results. -/
def select_loop (normalized_names : List String) :
    List (Option Json) → Option Json × Nat → Except PyError (Option Json × Nat)
  | [], st => .ok st
  | d :: rest, st =>
    match select_step normalized_names st d with
    | .ok st2 => select_loop normalized_names rest st2
    | .error e => .error e

/-- The ingredient-based best-recipe selector of `upload_products_tab`
(src/Streamlit.py lines 236-245): starting from `best_recipe = None` and
`best_match_count = 0`, fold the loop over the list of `get_recipe_details`
results (one per candidate, `none` when the lookup returned `None`) and
return the final `best_recipe`. -/
def select_best (fetched_details : List (Option Json))
    (normalized_names : List String) : Except PyError (Option Json) :=
  (select_loop normalized_names fetched_details (none, 0)).map Prod.fst

/-- Python truthiness of the final `best_recipe` variable (`None` or a
dict). -/
def pyTruthyOpt : Option Json → Bool
  | none => false
  | some j => j.isTruthy

/-- The selection loop of `upload_products_tab` over the candidate stubs
themselves (src/Streamlit.py lines 239-245): for each candidate the code
evaluates `recipe[\x27idMeal\x27]` (which can raise `KeyError`), calls
`get_recipe_details` on the response supplied by the network oracle `net`,
and feeds the result to `select_step`. -/
def upload_loop (net : Json → HttpResponse) (normalized_names : List String) :
    List Json → Option Json × Nat → Except PyError (Option Json × Nat)
  | [], st => .ok st
  | recipe :: rest, st => do
    let idv ← subscriptKey recipe "idMeal"
    let d ← get_recipe_details (net idv)
    let st2 ← select_step normalized_names st d
    upload_loop net normalized_names rest st2

/-- The search-and-select part of `upload_products_tab` (src/Streamlit.py
lines 231-250), acting on the stored `best_recipe` slot `prev`.
`searchResult` is the value returned by `search_recipes_by_ingredients`
(`none` models its failure value `None`).  A falsy result (failure or empty
list) leaves the slot untouched; otherwise the selection loop runs and the
slot is overwritten only when the final `best_recipe` is truthy. -/
def upload_flow (searchResult : Option (List Json)) (net : Json → HttpResponse)
    (normalized_names : List String) (prev : Option Json) :
    Except PyError (Option Json) :=
  match searchResult with
  | none => .ok prev
  | some recipes =>
    if recipes.isEmpty then .ok prev
    else do
      let st ← upload_loop net normalized_names recipes (none, 0)
      if pyTruthyOpt st.1 then .ok st.1 else .ok prev

/-! ## The category/area flow (select_filters_tab) -/

/-- The search-and-select part of `select_filters_tab` (src/Streamlit.py
lines 271-284), acting on the stored `best_recipe` slot `prev`.
`searchResult` is the value returned by `search_recipes_by_category_and_area`
(`none` models its failure value `None`).  On a truthy result the code takes
`recipes[0]` and, when that stub is truthy, stores
`get_recipe_details(best_recipe[\x27idMeal\x27])` into the slot
unconditionally — including when that lookup returns `None`. -/
def select_filters_flow (searchResult : Option Json)
    (net : Json → HttpResponse) (prev : Option Json) :
    Except PyError (Option Json) :=
  match searchResult with
  | none => .ok prev
  | some meals =>
    if meals.isTruthy then do
      let best ← subscriptIndex meals 0
      if best.isTruthy then do
        let idv ← subscriptKey best "idMeal"
        let d ← get_recipe_details (net idv)
        .ok d
      else .ok prev
    else .ok prev

/-! ## Reduction lemmas for the Except monad -/

/-- Binding a successful `Except` computation applies the continuation. -/
theorem except_bind_ok {ε α β : Type} (a : α) (f : α → Except ε β) :
    (Except.ok a >>= f) = f a := rfl

/-- Binding a failed `Except` computation propagates the failure. -/
theorem except_bind_error {ε α β : Type} (e : ε) (f : α → Except ε β) :
    ((Except.error e : Except ε α) >>= f) = Except.error e := rfl

/-! ## Sample data used by witnesses -/

/-- A recipe-details dict whose first ingredient slot holds "Chicken". -/
def chickenRecipe : Json := Json.obj [("strIngredient1", Json.str "Chicken")]

/-- A recipe-details dict whose second ingredient slot holds "Chicken". -/
def chickenRecipe2 : Json := Json.obj [("strIngredient2", Json.str "Chicken")]

/-- A recipe-details dict whose only ingredient is "Beef". -/
def beefRecipe : Json := Json.obj [("strIngredient1", Json.str "Beef")]

/-- A previously stored selection. -/
def oldRecipe : Json := Json.obj [("strMeal", Json.str "Old")]

/-- A candidate stub as returned by the filter queries. -/
def candStub : Json := Json.obj [("idMeal", Json.str "1")]

/-- A network oracle whose every response is a 500 with a non-JSON body. -/
def failNet : Json → HttpResponse := fun _ => ⟨500, none⟩

/-! ## Claim theorems -/

/-- C2: the claim says `get_recipe_details` on a 200 response whose `meals`
array is empty returns the failure value and does not raise an
index-out-of-range exception.  The code (src/Streamlit.py line 123) catches
only `ValueError` and `KeyError`, so evaluating the embedded function at that
exact response shows the `IndexError` escaping instead of the claimed
`.ok none`. -/
theorem get_recipe_details_empty_meals_raises :
    get_recipe_details ⟨200, some (.obj [("meals", .arr [])])⟩ =
      .error .indexError ∧
    (Except.error .indexError : Except PyError (Option Json)) ≠ .ok none := by
  refine ⟨rfl, ?_⟩
  intro h
  cases h

/-- C3 counterexample: a 200-status response whose JSON body is the object
with no `meals` key makes `fetch_ingredient_list` raise `KeyError` out of the
operation instead of yielding the claimed Failure value. -/
theorem fetch_missing_key_counterexample :
    fetch_ingredient_list ⟨200, some (.obj [])⟩ = .error (.keyError "meals") ∧
    (Except.error (.keyError "meals") : Except PyError (Option Json)) ≠ .ok none := by
  refine ⟨rfl, ?_⟩
  intro h
  cases h

/-- C3 amended: for the two cited fetch operations, a 200-status body that is
not valid JSON yields the Failure value (only `ValueError` is caught), while a
200-status body that is valid JSON but lacks the expected `meals` key raises
`KeyError` out of the operation rather than yielding Failure. -/
theorem fetch_failure_policy :
    (∀ resp : HttpResponse, resp.status = 200 → resp.body = none →
      fetch_ingredient_list resp = .ok none ∧
      search_recipes_by_category_and_area resp = .ok none) ∧
    (∀ fields : List (String × Json), fields.lookup "meals" = none →
      fetch_ingredient_list ⟨200, some (.obj fields)⟩ =
        .error (.keyError "meals") ∧
      search_recipes_by_category_and_area ⟨200, some (.obj fields)⟩ =
        .error (.keyError "meals")) := by
  constructor
  · rintro ⟨status, body⟩ hs hb
    simp only at hs hb
    subst hs
    subst hb
    exact ⟨rfl, rfl⟩
  · intro fields h
    constructor <;>
      simp [fetch_ingredient_list, search_recipes_by_category_and_area,
        responseJson, subscriptKey, h, except_bind_ok]

/-- Witness for C3: both branches of `fetch_failure_policy` at concrete
responses. -/
theorem fetch_failure_policy_witness :
    fetch_ingredient_list ⟨200, none⟩ = .ok none ∧
    search_recipes_by_category_and_area ⟨200, none⟩ = .ok none ∧
    fetch_ingredient_list ⟨200, some (.obj [])⟩ = .error (.keyError "meals") :=
  ⟨(fetch_failure_policy.1 ⟨200, none⟩ rfl rfl).1,
   (fetch_failure_policy.1 ⟨200, none⟩ rfl rfl).2,
   (fetch_failure_policy.2 [] rfl).1⟩

/-- C7: both chat backends are total (their embedded types return a plain
value, never an exception), and when the underlying model call throws, each
returns the string "An error occurred: " followed by the failure details. -/
theorem chat_backends_error_string (gen : String → Except String Json)
    (invoke : String → Except String String) (prompt eg el : String)
    (hg : gen prompt = .error eg) (hl : invoke prompt = .error el) :
    generate_response_gemma gen prompt =
      .str ("An error occurred: " ++ eg) ∧
    generate_response_llama invoke prompt = "An error occurred: " ++ el := by
  constructor
  · simp [generate_response_gemma, hg, except_bind_error]
  · simp [generate_response_llama, hl]

/-- Witness for C7: backends whose model calls throw with message "boom". -/
theorem chat_backends_error_string_witness :
    generate_response_gemma (fun _ => .error "boom") "hi" =
      .str ("An error occurred: " ++ "boom") ∧
    generate_response_llama (fun _ => .error "boom") "hi" =
      "An error occurred: " ++ "boom" :=
  chat_backends_error_string (fun _ => .error "boom") (fun _ => .error "boom")
    "hi" "boom" "boom" rfl rfl

/-- C8: on a non-empty candidate list from the category/area search, the
flow stores the `get_recipe_details` result of the first candidate in the
list.  The flow takes no normalized ingredient set and computes no
`match_count`, so no ingredient-overlap scoring is performed. -/
theorem filters_flow_picks_first (best : Json) (rest : List Json)
    (net : Json → HttpResponse) (prev : Option Json) (idv : Json)
    (d : Option Json)
    (ht : best.isTruthy = true)
    (hid : subscriptKey best "idMeal" = .ok idv)
    (hd : get_recipe_details (net idv) = .ok d) :
    select_filters_flow (some (.arr (best :: rest))) net prev = .ok d := by
  have harr : (Json.arr (best :: rest)).isTruthy = true := by
    simp [Json.isTruthy]
  simp [select_filters_flow, harr, subscriptIndex, ht, hid, hd,
    except_bind_ok]

/-- Witness for C8: a one-element candidate list whose lookup succeeds. -/
theorem filters_flow_picks_first_witness :
    select_filters_flow (some (.arr [candStub]))
      (fun _ => ⟨200, some (.obj [("meals", .arr [chickenRecipe])])⟩) none =
      .ok (some chickenRecipe) :=
  filters_flow_picks_first candStub []
    (fun _ => ⟨200, some (.obj [("meals", .arr [chickenRecipe])])⟩) none
    (.str "1") (some chickenRecipe) rfl rfl rfl

/-- C9: on a submission with non-empty input the chat flow first clears the
transcript, so the resulting transcript is exactly the current user line
followed by the current bot line — two lines, independent of whatever
transcript was stored before. -/
theorem chat_turn_clears_history (gen : String → Except String Json)
    (invoke : String → Except String String) (model_choice : String)
    (history history2 : List String) (user_input : String)
    (h : user_input.isEmpty = false) :
    (∃ bot, chat_turn gen invoke model_choice history user_input =
      ["Aspiring Chef: " ++ user_input, "Culinary Luminary: " ++ bot]) ∧
    chat_turn gen invoke model_choice history user_input =
      chat_turn gen invoke model_choice history2 user_input := by
  refine ⟨⟨if model_choice = "gemma:2b" then
      pyStr (generate_response_gemma gen user_input)
    else generate_response_llama invoke user_input, ?_⟩, ?_⟩ <;>
  simp [chat_turn, h]

/-- Witness for C9: a concrete turn on a non-empty transcript. -/
theorem chat_turn_clears_history_witness :
    (∃ bot, chat_turn (fun _ => .error "x") (fun _ => .ok "pasta")
        "Chef De-Code" ["old line"] "hi" =
      ["Aspiring Chef: " ++ "hi", "Culinary Luminary: " ++ bot]) ∧
    chat_turn (fun _ => .error "x") (fun _ => .ok "pasta")
        "Chef De-Code" ["old line"] "hi" =
      chat_turn (fun _ => .error "x") (fun _ => .ok "pasta")
        "Chef De-Code" [] "hi" :=
  chat_turn_clears_history (fun _ => .error "x") (fun _ => .ok "pasta")
    "Chef De-Code" ["old line"] [] "hi" rfl

/-- C10: both options the chat UI offers differ from the string "gemma:2b"
that the gemma branch compares against, so for either choice the turn is
produced by `generate_response_llama` and `generate_response_gemma` is never
invoked from the UI. -/
theorem chat_choices_use_llama (gen : String → Except String Json)
    (invoke : String → Except String String) (history : List String)
    (user_input : String) (h : user_input.isEmpty = false) :
    chat_turn gen invoke "Chef De-Code" history user_input =
      ["Aspiring Chef: " ++ user_input,
       "Culinary Luminary: " ++ generate_response_llama invoke user_input] ∧
    chat_turn gen invoke "Chef App-etizer" history user_input =
      ["Aspiring Chef: " ++ user_input,
       "Culinary Luminary: " ++ generate_response_llama invoke user_input] ∧
    "Chef De-Code" ≠ "gemma:2b" ∧ "Chef App-etizer" ≠ "gemma:2b" := by
  refine ⟨?_, ?_, by decide, by decide⟩ <;> simp [chat_turn, h]

/-- Witness for C10: a concrete turn for each offered choice. -/
theorem chat_choices_use_llama_witness :
    chat_turn (fun _ => .ok (.str "gemma answer")) (fun _ => .ok "llama answer")
        "Chef De-Code" [] "hi" =
      ["Aspiring Chef: " ++ "hi",
       "Culinary Luminary: " ++ generate_response_llama
         (fun _ => .ok "llama answer") "hi"] ∧
    chat_turn (fun _ => .ok (.str "gemma answer")) (fun _ => .ok "llama answer")
        "Chef App-etizer" [] "hi" =
      ["Aspiring Chef: " ++ "hi",
       "Culinary Luminary: " ++ generate_response_llama
         (fun _ => .ok "llama answer") "hi"] :=
  ⟨(chat_choices_use_llama (fun _ => .ok (.str "gemma answer"))
      (fun _ => .ok "llama answer") [] "hi" rfl).1,
   (chat_choices_use_llama (fun _ => .ok (.str "gemma answer"))
      (fun _ => .ok "llama answer") [] "hi" rfl).2.1⟩

/-- Filtering a list by a predicate and by its negation splits every
occurrence count. -/
theorem count_filter_split (p : String → Bool) (P : List String) (x : String) :
    (P.filter p).count x + (P.filter (fun a => !p a)).count x = P.count x := by
  induction P with
  | nil => rfl
  | cons a P ih =>
    by_cases hp : p a = true
    · simp only [List.filter_cons, hp, if_pos, Bool.not_true, if_neg,
        Bool.false_eq_true, not_false_iff, List.count_cons]
      omega
    · have hp' : p a = false := by simpa using hp
      simp only [List.filter_cons, hp', Bool.false_eq_true, if_neg,
        not_false_iff, Bool.not_false, if_pos, List.count_cons]
      omega

/-- C5: `normalize_ingredients` partitions the product names exactly.  When
extracting the recognized names succeeds, the call returns two lists, each a
sublist of the input (so input order and duplicates are preserved), members
of the first are exactly-case-sensitively present among the recognized names,
members of the second are absent, and every occurrence of every product name
lands in exactly one of the two outputs (the occurrence counts add up). -/
theorem normalize_ingredients_partitions (P : List String) (R : List Json)
    (names : List Json) (h : ingredient_names R = .ok names) :
    ∃ m u, normalize_ingredients P R = .ok (m, u) ∧
      m.Sublist P ∧ u.Sublist P ∧
      (∀ x ∈ m, names.any (fun j => j.isStrEq x) = true) ∧
      (∀ x ∈ u, names.any (fun j => j.isStrEq x) = false) ∧
      ∀ x, m.count x + u.count x = P.count x := by
  refine ⟨P.filter (fun n => names.any (fun j => j.isStrEq n)),
    P.filter (fun n => !(names.any (fun j => j.isStrEq n))), ?_, ?_, ?_, ?_, ?_, ?_⟩
  · simp [normalize_ingredients, h, except_bind_ok]
  · exact List.filter_sublist P
  · exact List.filter_sublist P
  · intro x hx
    exact (List.mem_filter.mp hx).2
  · intro x hx
    have := (List.mem_filter.mp hx).2
    simpa using this
  · intro x
    exact count_filter_split (fun n => names.any (fun j => j.isStrEq n)) P x

/-- Witness for C5: a concrete product list with a duplicate and an
unrecognized name, against a two-ingredient vocabulary. -/
theorem normalize_ingredients_partitions_witness :
    ∃ m u,
      normalize_ingredients ["Chicken", "Soap", "Chicken"]
        [Json.obj [("strIngredient", Json.str "Chicken")],
         Json.obj [("strIngredient", Json.str "Beef")]] = .ok (m, u) ∧
      m.Sublist ["Chicken", "Soap", "Chicken"] ∧
      u.Sublist ["Chicken", "Soap", "Chicken"] ∧
      (∀ x ∈ m, [Json.str "Chicken", Json.str "Beef"].any
        (fun j => j.isStrEq x) = true) ∧
      (∀ x ∈ u, [Json.str "Chicken", Json.str "Beef"].any
        (fun j => j.isStrEq x) = false) ∧
      ∀ x, m.count x + u.count x = ["Chicken", "Soap", "Chicken"].count x :=
  normalize_ingredients_partitions ["Chicken", "Soap", "Chicken"]
    [Json.obj [("strIngredient", Json.str "Chicken")],
     Json.obj [("strIngredient", Json.str "Beef")]]
    [Json.str "Chicken", Json.str "Beef"] rfl

/-! ## Characterising the ingredient-overlap selection loop -/

/-- Unfolding equation for `select_loop` on a cons cell. -/
theorem select_loop_cons (N : List String) (d : Option Json)
    (rest : List (Option Json)) (st : Option Json × Nat) :
    select_loop N (d :: rest) st =
      match select_step N st d with
      | .ok st2 => select_loop N rest st2
      | .error e => .error e := rfl

/-- Full characterisation of the selection loop run from an arbitrary
accumulator `(b, c)`: either no candidate beat `c` and the accumulator is
returned unchanged, or the result is the first candidate (after the last
improvement) whose count strictly exceeds everything before it and is not
exceeded by anything after it. -/
theorem select_loop_spec (N : List String) (l : List (Option Json)) :
    ∀ (b : Option Json) (c : Nat) (res : Option Json × Nat),
      select_loop N l (b, c) = .ok res →
      (res = (b, c) ∧
        ∀ d ∈ l, ∀ j, d = some j → j.isTruthy = true → match_count j N ≤ c) ∨
      (∃ pre r suf, l = pre ++ some r :: suf ∧ r.isTruthy = true ∧
        res = (some r, match_count r N) ∧ c < match_count r N ∧
        (∀ d ∈ pre, ∀ j, d = some j → j.isTruthy = true →
          match_count j N < match_count r N) ∧
        (∀ d ∈ suf, ∀ j, d = some j → j.isTruthy = true →
          match_count j N ≤ match_count r N)) := by
  induction l with
  | nil =>
    intro b c res h
    left
    simp only [select_loop, Except.ok.injEq] at h
    exact ⟨h.symm, by simp⟩
  | cons d rest ih =>
    intro b c res h
    rw [select_loop_cons] at h
    cases d with
    | none =>
      simp only [select_step] at h
      rcases ih b c res h with ⟨hres, hall⟩ | ⟨pre, r, suf, hl, hT, hres, hc, hpre, hsuf⟩
      · left
        refine ⟨hres, ?_⟩
        intro d hd j hj ht
        rcases List.mem_cons.mp hd with rfl | hd'
        · exact Option.noConfusion hj
        · exact hall d hd' j hj ht
      · right
        refine ⟨none :: pre, r, suf, by rw [hl]; rfl, hT, hres, hc, ?_, hsuf⟩
        intro d hd j hj ht
        rcases List.mem_cons.mp hd with rfl | hd'
        · exact Option.noConfusion hj
        · exact hpre d hd' j hj ht
    | some j =>
      cases hT : j.isTruthy with
      | false =>
        simp only [select_step, hT, Bool.false_eq_true, if_neg,
          not_false_iff] at h
        rcases ih b c res h with ⟨hres, hall⟩ | ⟨pre, r, suf, hl, hTr, hres, hc, hpre, hsuf⟩
        · left
          refine ⟨hres, ?_⟩
          intro d hd j2 hj2 ht2
          rcases List.mem_cons.mp hd with rfl | hd'
          · injection hj2 with hj2
            subst hj2
            rw [hT] at ht2
            exact Bool.noConfusion ht2
          · exact hall d hd' j2 hj2 ht2
        · right
          refine ⟨some j :: pre, r, suf, by rw [hl]; rfl, hTr, hres, hc, ?_, hsuf⟩
          intro d hd j2 hj2 ht2
          rcases List.mem_cons.mp hd with rfl | hd'
          · injection hj2 with hj2
            subst hj2
            rw [hT] at ht2
            exact Bool.noConfusion ht2
          · exact hpre d hd' j2 hj2 ht2
      | true =>
        cases hO : j.isObj with
        | false =>
          simp only [select_step, hT, hO, if_pos, Bool.false_eq_true, if_neg,
            not_false_iff] at h
          exact Except.noConfusion h
        | true =>
          by_cases hc0 : c < match_count j N
          · have hstep : select_step N (b, c) (some j) =
                .ok (some j, match_count j N) := by
              simp [select_step, hT, hO, hc0]
            rw [hstep] at h
            rcases ih (some j) (match_count j N) res h with
              ⟨hres, hall⟩ | ⟨pre, r, suf, hl, hTr, hres, hcr, hpre, hsuf⟩
            · right
              exact ⟨[], j, rest, rfl, hT, hres, hc0, by simp, hall⟩
            · right
              refine ⟨some j :: pre, r, suf, by rw [hl]; rfl, hTr, hres,
                lt_trans hc0 hcr, ?_, hsuf⟩
              intro d hd j2 hj2 ht2
              rcases List.mem_cons.mp hd with rfl | hd'
              · injection hj2 with hj2
                subst hj2
                exact hcr
              · exact hpre d hd' j2 hj2 ht2
          · have hstep : select_step N (b, c) (some j) = .ok (b, c) := by
              simp [select_step, hT, hO, hc0]
            rw [hstep] at h
            rcases ih b c res h with
              ⟨hres, hall⟩ | ⟨pre, r, suf, hl, hTr, hres, hcr, hpre, hsuf⟩
            · left
              refine ⟨hres, ?_⟩
              intro d hd j2 hj2 ht2
              rcases List.mem_cons.mp hd with rfl | hd'
              · injection hj2 with hj2
                subst hj2
                exact Nat.le_of_not_lt hc0
              · exact hall d hd' j2 hj2 ht2
            · right
              refine ⟨some j :: pre, r, suf, by rw [hl]; rfl, hTr, hres, hcr, ?_, hsuf⟩
              intro d hd j2 hj2 ht2
              rcases List.mem_cons.mp hd with rfl | hd'
              · injection hj2 with hj2
                subst hj2
                exact lt_of_le_of_lt (Nat.le_of_not_lt hc0) hcr
              · exact hpre d hd' j2 hj2 ht2

/-- When every fetched detail value is a dict (as every real recipe-details
value is), the selection loop raises nothing. -/
theorem select_loop_total (N : List String) (l : List (Option Json))
    (hwf : ∀ d ∈ l, ∀ j, d = some j → j.isObj = true) :
    ∀ st, ∃ res, select_loop N l st = .ok res := by
  induction l with
  | nil => exact fun st => ⟨st, rfl⟩
  | cons d rest ih =>
    intro st
    have hrest : ∀ d ∈ rest, ∀ j, d = some j → j.isObj = true :=
      fun d hd => hwf d (List.mem_cons_of_mem _ hd)
    cases d with
    | none =>
      obtain ⟨res, hres⟩ := ih hrest st
      exact ⟨res, by rw [select_loop_cons]; simpa [select_step] using hres⟩
    | some j =>
      have hobj : j.isObj = true := hwf (some j) (List.mem_cons_self _ _) j rfl
      cases hT : j.isTruthy with
      | false =>
        obtain ⟨res, hres⟩ := ih hrest st
        exact ⟨res, by rw [select_loop_cons]; simpa [select_step, hT] using hres⟩
      | true =>
        by_cases hc : st.2 < match_count j N
        · obtain ⟨res, hres⟩ := ih hrest (some j, match_count j N)
          refine ⟨res, ?_⟩
          rw [select_loop_cons]
          simpa [select_step, hT, hobj, hc] using hres
        · obtain ⟨res, hres⟩ := ih hrest st
          refine ⟨res, ?_⟩
          rw [select_loop_cons]
          simpa [select_step, hT, hobj, hc] using hres

/-- A successful selection is witnessed by a successful loop run. -/
theorem select_best_ok_some (fetched : List (Option Json)) (N : List String)
    (r : Json) (h : select_best fetched N = .ok (some r)) :
    ∃ res, select_loop N fetched (none, 0) = .ok res ∧ res.1 = some r := by
  cases hsel : select_loop N fetched (none, 0) with
  | ok res =>
    refine ⟨res, rfl, ?_⟩
    rw [select_best, hsel] at h
    simpa [Except.map] using h
  | error e =>
    rw [select_best, hsel] at h
    simp [Except.map] at h

/-- C1: the ingredient-based selector never selects a candidate whose
overlap count is 0 — a selected recipe always has positive `match_count` —
and when the fetched details are recipe dicts all of count 0 (or the list is
empty), the selection ends with `best_recipe = None`, so nothing is stored.
`fetched` is the list of per-candidate `get_recipe_details` results. -/
theorem selector_never_zero_overlap (fetched : List (Option Json))
    (N : List String) :
    (∀ r, select_best fetched N = .ok (some r) → 0 < match_count r N) ∧
    ((∀ d ∈ fetched, ∀ j, d = some j → j.isObj = true) →
     (∀ d ∈ fetched, ∀ j, d = some j → j.isTruthy = true →
       match_count j N = 0) →
     select_best fetched N = .ok none) := by
  constructor
  · intro r h
    obtain ⟨res, hres, h1⟩ := select_best_ok_some fetched N r h
    rcases select_loop_spec N fetched none 0 res hres with
      ⟨hr, _⟩ | ⟨pre, r2, suf, _, _, hres2, hc, _, _⟩
    · rw [hr] at h1
      exact Option.noConfusion h1
    · rw [hres2] at h1
      injection h1 with h1
      rw [← h1]
      exact hc
  · intro hwf hz
    obtain ⟨res, hres⟩ := select_loop_total N fetched hwf (none, 0)
    rcases select_loop_spec N fetched none 0 res hres with
      ⟨hr, _⟩ | ⟨pre, r, suf, hl, hT, _, hc, _, _⟩
    · rw [select_best, hres, hr]
      rfl
    · exfalso
      have hmem : some r ∈ fetched := by
        rw [hl]
        exact List.mem_append_right _ (List.mem_cons_self _ _)
      have hzero := hz (some r) hmem r rfl hT
      omega

/-- Witness for C1: a selected chicken recipe has positive count, and an
all-zero-count candidate list yields no selection. -/
theorem selector_never_zero_overlap_witness :
    0 < match_count chickenRecipe ["Chicken"] ∧
    select_best [some beefRecipe] ["Chicken"] = .ok none :=
  ⟨(selector_never_zero_overlap [some chickenRecipe] ["Chicken"]).1
      chickenRecipe rfl,
   (selector_never_zero_overlap [some beefRecipe] ["Chicken"]).2
     (by
       intro d hd j hj
       simp only [List.mem_singleton] at hd
       subst hd
       injection hj with hj
       subst hj
       rfl)
     (by
       intro d hd j hj ht
       simp only [List.mem_singleton] at hd
       subst hd
       injection hj with hj
       subst hj
       rfl)⟩

/-- C6: first-match-wins.  A selected recipe `r` occurs at a position where
every earlier truthy candidate has a strictly smaller overlap count and no
candidate anywhere has a larger one; hence among candidates of equal,
maximal count the selector returns the one appearing first in the list. -/
theorem selector_first_match_wins (fetched : List (Option Json))
    (N : List String) (r : Json)
    (h : select_best fetched N = .ok (some r)) :
    ∃ pre suf, fetched = pre ++ some r :: suf ∧
      (∀ d ∈ fetched, ∀ j, d = some j → j.isTruthy = true →
        match_count j N ≤ match_count r N) ∧
      (∀ d ∈ pre, ∀ j, d = some j → j.isTruthy = true →
        match_count j N < match_count r N) := by
  obtain ⟨res, hres, h1⟩ := select_best_ok_some fetched N r h
  rcases select_loop_spec N fetched none 0 res hres with
    ⟨hr, _⟩ | ⟨pre, r2, suf, hl, hT, hres2, hc, hpre, hsuf⟩
  · rw [hr] at h1
    exact Option.noConfusion h1
  · rw [hres2] at h1
    injection h1 with h1
    subst h1
    refine ⟨pre, suf, hl, ?_, hpre⟩
    intro d hd j hj ht
    rw [hl] at hd
    rcases List.mem_append.mp hd with hd' | hd'
    · exact le_of_lt (hpre d hd' j hj ht)
    · rcases List.mem_cons.mp hd' with rfl | hd''
      · injection hj with hj
        subst hj
        exact le_refl _
      · exact hsuf d hd'' j hj ht

/-- Witness for C6: two candidates with equal, maximal count 1; the selector
returns the first, which the decomposition exhibits. -/
theorem selector_first_match_wins_witness :
    ∃ pre suf,
      [some chickenRecipe, some chickenRecipe2] =
        pre ++ some chickenRecipe :: suf ∧
      (∀ d ∈ [some chickenRecipe, some chickenRecipe2], ∀ j, d = some j →
        j.isTruthy = true →
        match_count j ["Chicken"] ≤ match_count chickenRecipe ["Chicken"]) ∧
      (∀ d ∈ pre, ∀ j, d = some j → j.isTruthy = true →
        match_count j ["Chicken"] < match_count chickenRecipe ["Chicken"]) :=
  selector_first_match_wins [some chickenRecipe, some chickenRecipe2]
    ["Chicken"] chickenRecipe rfl

/-- When every candidate has an `idMeal` key and every details lookup
returns the failure value `None`, the upload selection loop leaves its
accumulator unchanged. -/
theorem upload_loop_all_fail (net : Json → HttpResponse) (N : List String)
    (recipes : List Json)
    (h : ∀ cand ∈ recipes, ∃ v, subscriptKey cand "idMeal" = .ok v ∧
      get_recipe_details (net v) = .ok none) :
    ∀ st, upload_loop net N recipes st = .ok st := by
  induction recipes with
  | nil => exact fun st => rfl
  | cons cand rest ih =>
    intro st
    obtain ⟨v, hv, hd⟩ := h cand (List.mem_cons_self _ _)
    have hrest := fun c hc => h c (List.mem_cons_of_mem _ hc)
    simp only [upload_loop, hv, hd, except_bind_ok, select_step]
    exact ih hrest st

/-- C4 counterexample: the claim says a fetch Failure leaves the stored
selection unchanged, but in the category/area flow a `get_recipe_details`
Failure after a non-empty search result overwrites the stored `some oldRecipe`
with `none`. -/
theorem filters_flow_failure_overwrites :
    get_recipe_details (failNet (Json.str "1")) = .ok none ∧
    select_filters_flow (some (Json.arr [candStub])) failNet (some oldRecipe) =
      .ok none ∧
    (Except.ok none : Except PyError (Option Json)) ≠ .ok (some oldRecipe) := by
  refine ⟨rfl, rfl, ?_⟩
  intro h
  injection h with h
  exact Option.noConfusion h

/-- C4 amended: a Failure from the candidate search leaves the stored
selection unchanged in both flows, and in the upload flow a Failure of every
details lookup also leaves it unchanged; but in the category/area flow a
Failure from `get_recipe_details` after a non-empty search result overwrites
the stored selection with `None`. -/
theorem fetch_failure_frame (net : Json → HttpResponse) (N : List String)
    (prev : Option Json) :
    (upload_flow none net N prev = .ok prev) ∧
    (∀ recipes : List Json,
      (∀ cand ∈ recipes, ∃ v, subscriptKey cand "idMeal" = .ok v ∧
        get_recipe_details (net v) = .ok none) →
      upload_flow (some recipes) net N prev = .ok prev) ∧
    (select_filters_flow none net prev = .ok prev) ∧
    (∀ best rest idv, best.isTruthy = true →
      subscriptKey best "idMeal" = .ok idv →
      get_recipe_details (net idv) = .ok none →
      select_filters_flow (some (.arr (best :: rest))) net prev = .ok none) := by
  refine ⟨rfl, ?_, rfl, ?_⟩
  · intro recipes h
    cases recipes with
    | nil => rfl
    | cons cand rest =>
      have hloop := upload_loop_all_fail net N (cand :: rest) h (none, 0)
      simp [upload_flow, hloop, except_bind_ok, pyTruthyOpt]
  · intro best rest idv hT hid hd
    have harr : (Json.arr (best :: rest)).isTruthy = true := by
      simp [Json.isTruthy]
    simp [select_filters_flow, harr, subscriptIndex, hT, hid, hd,
      except_bind_ok]

/-- Witness for C4: with the all-failing network, the upload flow and a
failed category/area search both leave the stored selection in place. -/
theorem fetch_failure_frame_witness :
    upload_flow (some [candStub]) failNet ["Chicken"] (some oldRecipe) =
      .ok (some oldRecipe) ∧
    select_filters_flow none failNet (some oldRecipe) = .ok (some oldRecipe) :=
  ⟨(fetch_failure_frame failNet ["Chicken"] (some oldRecipe)).2.1 [candStub]
      (by
        intro c hc
        simp only [List.mem_singleton] at hc
        subst hc
        exact ⟨Json.str "1", rfl, rfl⟩),
   (fetch_failure_frame failNet ["Chicken"] (some oldRecipe)).2.2.1⟩
